import Mathlib

/-!
Bring-up sketches: sensor reconnection monitor and display counter.

Shallow embedding of the two sketches of the repository:

* `src/mpucheck.cpp`  (namespace `mpucheck`): the MPU6050 polling loop with its
  `connection_lost` flag;
* `src/test_oled.cpp` (namespace `test_oled`): the SSD1306 start-up sequence and
  the counter loop.

Every call on a peripheral (`Serial`, `mpu`, `display`, `delay`) is recorded as an
event, in program order.  What the hardware answers (the reading returned by
`mpu.getEvent`, the result of `mpu.begin()` and of `display.begin(..)`) is an
input of the embedded function.
-/

/-! ## IEEE-754 single precision values (the C++ type `float`) -/

/-- A `float` as its three bit fields: sign bit, 8 exponent bits, 23 fraction bits. -/
structure F32 where
  sign : Bool
  exponent : Fin 256
  mantissa : Fin 8388608
deriving DecidableEq

/-- The value denoted by a `float`. -/
inductive FVal where
  | nan : FVal
  | inf (neg : Bool) : FVal
  | fin (q : ℚ) : FVal

namespace F32

/-- Numeric value of the bit pattern: subnormal, normal, infinity or NaN. -/
def val (x : F32) : FVal :=
  if x.exponent.val = 255 then
    (if x.mantissa.val = 0 then FVal.inf x.sign else FVal.nan)
  else if x.exponent.val = 0 then
    FVal.fin ((if x.sign then -1 else 1) * ((x.mantissa.val : ℚ) / 8388608) / 2 ^ 126)
  else
    FVal.fin ((if x.sign then -1 else 1) * (1 + (x.mantissa.val : ℚ) / 8388608)
      * 2 ^ x.exponent.val / 2 ^ 127)

/-- The C++ comparison `x == 0.00`: true exactly for the two zeros `+0.0` and `-0.0`
(all exponent and fraction bits clear); false for every other value, NaN included. -/
def eqZero (x : F32) : Bool :=
  x.exponent.val == 0 && x.mantissa.val == 0

/-- The constant `+0.0`. -/
def zero : F32 := ⟨false, 0, 0⟩

/-- The constant `1.0`. -/
def one : F32 := ⟨false, 127, 0⟩

/-- The constant `2.0`. -/
def two : F32 := ⟨false, 128, 0⟩

end F32

namespace mpucheck

/-- The library type `sensors_vec_t`: three `float` components. -/
structure Vec3 where
  x : F32
  y : F32
  z : F32
deriving DecidableEq

/-- What one call `mpu.getEvent(&a, &g, &temp)` delivers: `acceleration` is
`a.acceleration`, `gyro` is `g.gyro`, `temperature` is `temp.temperature`. -/
structure Reading where
  acceleration : Vec3
  gyro : Vec3
  temperature : F32
deriving DecidableEq

/-- Library enumeration `mpu6050_accel_range_t`. -/
inductive AccelRange where
  | MPU6050_RANGE_2_G | MPU6050_RANGE_4_G | MPU6050_RANGE_8_G | MPU6050_RANGE_16_G
deriving DecidableEq

/-- Library enumeration `mpu6050_gyro_range_t`. -/
inductive GyroRange where
  | MPU6050_RANGE_250_DEG | MPU6050_RANGE_500_DEG | MPU6050_RANGE_1000_DEG
  | MPU6050_RANGE_2000_DEG
deriving DecidableEq

/-- Library enumeration `mpu6050_bandwidth_t`. -/
inductive Bandwidth where
  | MPU6050_BAND_260_HZ | MPU6050_BAND_184_HZ | MPU6050_BAND_94_HZ | MPU6050_BAND_44_HZ
  | MPU6050_BAND_21_HZ | MPU6050_BAND_10_HZ | MPU6050_BAND_5_HZ
deriving DecidableEq

/-- One call on a peripheral made by the sensor sketch. -/
inductive Event where
  /-- The call `mpu.getEvent(&a, &g, &temp)`. -/
  | getEvent : Event
  /-- The call `Serial.print(s)`. -/
  | serialPrint (s : String) : Event
  /-- The call `Serial.println(s)`. -/
  | serialPrintln (s : String) : Event
  /-- The call `Serial.print(x, digits)` on a `float`. -/
  | serialPrintFloat (x : F32) (digits : Nat) : Event
  /-- The call `Serial.println(x, digits)` on a `float`. -/
  | serialPrintlnFloat (x : F32) (digits : Nat) : Event
  /-- The call `mpu.begin()` together with what it returned. -/
  | mpuBegin (ok : Bool) : Event
  /-- The call `mpu.setAccelerometerRange(r)`. -/
  | setAccelerometerRange (r : AccelRange) : Event
  /-- The call `mpu.setGyroRange(r)`. -/
  | setGyroRange (r : GyroRange) : Event
  /-- The call `mpu.setFilterBandwidth(b)`. -/
  | setFilterBandwidth (b : Bandwidth) : Event
  /-- The call `delay(ms)`. -/
  | delay (ms : Nat) : Event
deriving DecidableEq

/-- Line 49: the literal line printed when the loss is first detected. -/
def zeroLine : String := "Accel: 0.00, 0.00, 0.00 | Gyro: 0.00, 0.00, 0.00"

/-- Line 50: the loss diagnostic. -/
def lossMsg : String := "Communication lost. Will attempt to reconnect silently..."

/-- Line 55: the reconnect diagnostic. -/
def reconnectMsg : String := "SUCCESS: Reconnected to MPU6050!"

/-- Lines 42-43: the local `is_all_zero` of `loop()`. -/
def is_all_zero (r : Reading) : Bool :=
  r.acceleration.x.eqZero && r.acceleration.y.eqZero && r.acceleration.z.eqZero &&
  r.gyro.x.eqZero && r.gyro.y.eqZero && r.gyro.z.eqZero

/-- Lines 47-51: first detection of the failure. -/
def markLost (connection_lost : Bool) : Bool × List Event :=
  if !connection_lost then
    (true, [Event.serialPrintln zeroLine, Event.serialPrintln lossMsg])
  else
    (connection_lost, [])

/-- Lines 54-60: the reconnection attempt; `beginOk` is what `mpu.begin()` returns. -/
def reconnect (connection_lost : Bool) (beginOk : Bool) : Bool × List Event :=
  if beginOk then
    (false, [Event.mpuBegin true,
             Event.serialPrintln reconnectMsg,
             Event.setAccelerometerRange AccelRange.MPU6050_RANGE_8_G,
             Event.setGyroRange GyroRange.MPU6050_RANGE_500_DEG,
             Event.setFilterBandwidth Bandwidth.MPU6050_BAND_21_HZ])
  else
    (connection_lost, [Event.mpuBegin false])

/-- Lines 69-84: normal data printing and the pacing delay. -/
def printData (r : Reading) : List Event :=
  [Event.serialPrint "Accel: ",
   Event.serialPrintFloat r.acceleration.x 2,
   Event.serialPrint ", ",
   Event.serialPrintFloat r.acceleration.y 2,
   Event.serialPrint ", ",
   Event.serialPrintFloat r.acceleration.z 2,
   Event.serialPrint " | ",
   Event.serialPrint "Gyro: ",
   Event.serialPrintFloat r.gyro.x 2,
   Event.serialPrint ", ",
   Event.serialPrintFloat r.gyro.y 2,
   Event.serialPrint ", ",
   Event.serialPrintlnFloat r.gyro.z 2,
   Event.delay 500]

/-- Lines 38-85: one execution of `loop()`.  Inputs: the global `connection_lost`
on entry, the reading delivered by `mpu.getEvent`, and the value `mpu.begin()`
returns if it is called.  Output: `connection_lost` on exit and the calls made. -/
def loop (connection_lost : Bool) (r : Reading) (beginOk : Bool) : Bool × List Event :=
  if is_all_zero r then
    let s1 := markLost connection_lost
    let s2 := reconnect s1.1 beginOk
    (s2.1, [Event.getEvent] ++ s1.2 ++ s2.2 ++ [Event.delay 500])
  else
    (false, [Event.getEvent] ++ printData r)

/-- What the hardware answers during one iteration. -/
structure Input where
  reading : Reading
  beginOk : Bool
deriving DecidableEq

/-- The harness calling `loop()` once per input: for each iteration, the value of
`connection_lost` when it ends and the calls it made. -/
def iterations : Bool → List Input → List (Bool × List Event)
  | _, [] => []
  | connection_lost, i :: rest =>
    let out := loop connection_lost i.reading i.beginOk
    out :: iterations out.1 rest

/-- The value of `connection_lost` after all the given iterations. -/
def finalFlag : Bool → List Input → Bool
  | connection_lost, [] => connection_lost
  | connection_lost, i :: rest => finalFlag (loop connection_lost i.reading i.beginOk).1 rest

/-- All the calls of a run, in order. -/
def allEvents : List (Bool × List Event) → List Event
  | [] => []
  | out :: rest => out.2 ++ allEvents rest

/-- Whether a call is `mpu.begin()`. -/
def Event.isBegin : Event → Bool
  | Event.mpuBegin _ => true
  | _ => false

/-- Whether a call is `delay(..)`. -/
def Event.isDelay : Event → Bool
  | Event.delay _ => true
  | _ => false

/-- How many times `mpu.begin()` is called. -/
def beginAttempts (evs : List Event) : Nat := (evs.filter Event.isBegin).length

/-- All six motion components of a reading have the value zero. -/
def Reading.allSixZero (r : Reading) : Prop :=
  r.acceleration.x.val = FVal.fin 0 ∧ r.acceleration.y.val = FVal.fin 0 ∧
  r.acceleration.z.val = FVal.fin 0 ∧
  r.gyro.x.val = FVal.fin 0 ∧ r.gyro.y.val = FVal.fin 0 ∧ r.gyro.z.val = FVal.fin 0

/-- Whether a call writes to the serial port. -/
def Event.isSerial : Event → Bool
  | Event.serialPrint _ => true
  | Event.serialPrintln _ => true
  | Event.serialPrintFloat _ _ => true
  | Event.serialPrintlnFloat _ _ => true
  | _ => false

/-- The serial output of a sequence of calls. -/
def serialOut (evs : List Event) : List Event := evs.filter Event.isSerial

/-- The text sent to the serial port; `fmt x d` is the text the core library
`Print::print(double, int)` produces for `x` with `d` decimal places. -/
def render (fmt : F32 → Nat → String) : List Event → String
  | [] => ""
  | Event.serialPrint s :: rest => s ++ render fmt rest
  | Event.serialPrintln s :: rest => s ++ "\r\n" ++ render fmt rest
  | Event.serialPrintFloat x d :: rest => fmt x d ++ render fmt rest
  | Event.serialPrintlnFloat x d :: rest => fmt x d ++ "\r\n" ++ render fmt rest
  | _ :: rest => render fmt rest

/-- A reading whose six motion components are `+0.0`. -/
def zeroReading (t : F32) : Reading := ⟨⟨F32.zero, F32.zero, F32.zero⟩, ⟨F32.zero, F32.zero, F32.zero⟩, t⟩

/-- The reading `(ax, 0, 0, 0, 0, 0)`. -/
def accelXReading (ax t : F32) : Reading := ⟨⟨ax, F32.zero, F32.zero⟩, ⟨F32.zero, F32.zero, F32.zero⟩, t⟩

/-- Scenario A of the specification: four iterations reading `(1.0, 0, 0, 0, 0, 0)`,
all zeros with `mpu.begin()` failing, all zeros with `mpu.begin()` succeeding, and
`(2.0, 0, 0, 0, 0, 0)`.  `b1` and `b4` are what `mpu.begin()` would answer in the
first and fourth iteration, `t` is the temperature delivered with every reading. -/
def scenarioA (b1 b4 : Bool) (t : F32) : List Input :=
  [⟨accelXReading F32.one t, b1⟩, ⟨zeroReading t, false⟩, ⟨zeroReading t, true⟩,
   ⟨accelXReading F32.two t, b4⟩]

end mpucheck

namespace test_oled

/-- Line 13: `#define SCREEN_ADDRESS 0x3C`. -/
def SCREEN_ADDRESS : Nat := 0x3C

/-- Library constants for the first argument of `display.begin`. -/
inductive VccSource where
  | SSD1306_EXTERNALVCC | SSD1306_SWITCHCAPVCC
deriving DecidableEq

/-- Library constants for the text colour. -/
inductive Color where
  | SSD1306_BLACK | SSD1306_WHITE | SSD1306_INVERSE
deriving DecidableEq

/-- One call on a peripheral made by the display sketch. -/
inductive Event where
  /-- The call `Serial.begin(baud)`. -/
  | serialBegin (baud : Nat) : Event
  /-- The call `delay(ms)`. -/
  | delay (ms : Nat) : Event
  /-- The call `Serial.print(s)`. -/
  | serialPrint (s : String) : Event
  /-- The call `Serial.println(s)`. -/
  | serialPrintln (s : String) : Event
  /-- The call `Serial.println(n)` on an `int`. -/
  | serialPrintlnInt (n : Int) : Event
  /-- The call `Wire.begin(sda, scl)`. -/
  | wireBegin (sda scl : Nat) : Event
  /-- The call `display.begin(vcc, addr)` together with what it returned. -/
  | displayBegin (vcc : VccSource) (addr : Nat) (ok : Bool) : Event
  /-- The call `display.clearDisplay()`. -/
  | clearDisplay : Event
  /-- The call `display.setTextSize(n)`. -/
  | setTextSize (n : Nat) : Event
  /-- The call `display.setTextColor(c)`. -/
  | setTextColor (c : Color) : Event
  /-- The call `display.setCursor(x, y)`. -/
  | setCursor (x y : Int) : Event
  /-- The call `display.print(s)`. -/
  | displayPrint (s : String) : Event
  /-- The call `display.println(s)`. -/
  | displayPrintln (s : String) : Event
  /-- The call `display.println(n)` on an `int`. -/
  | displayPrintlnInt (n : Int) : Event
  /-- The call `display.display()`, the flush of the frame buffer. -/
  | display : Event
deriving DecidableEq

/-- How `setup()` ends: it returns, or it stays in `while(1);` for ever. -/
inductive Outcome where
  | returned | halted
deriving DecidableEq

/-- Lines 18-24: the calls before the display is probed. -/
def preamble : List Event :=
  [Event.serialBegin 115200,
   Event.delay 2000,
   Event.serialPrintln "=== Gateway OLED Test ===",
   Event.wireBegin 21 22]

/-- Lines 33-37: the wiring-check diagnostics. -/
def wiringCheck : List String :=
  ["Check connections:", "  VCC → 3V3", "  GND → GND", "  SDA → GPIO 21", "  SCL → GPIO 22"]

/-- Lines 47-60: the banner and the final log line. -/
def banner : List Event :=
  [Event.clearDisplay,
   Event.setTextSize 1,
   Event.setTextColor Color.SSD1306_WHITE,
   Event.setCursor 0 0,
   Event.displayPrintln "Gateway Node",
   Event.displayPrintln "OLED Test",
   Event.displayPrintln "---------------",
   Event.setTextSize 2,
   Event.displayPrintln "SUCCESS!",
   Event.display,
   Event.serialPrintln "OLED displaying test pattern"]

/-- Lines 26-44: probing the display at `SCREEN_ADDRESS`, then at `0x3D`.
`beginOk addr` is what `display.begin(.., addr)` returns when it is called. -/
def probe (beginOk : Nat → Bool) : Outcome × List Event :=
  if !beginOk SCREEN_ADDRESS then
    if !beginOk 0x3D then
      (Outcome.halted,
        [Event.displayBegin VccSource.SSD1306_SWITCHCAPVCC SCREEN_ADDRESS false,
         Event.serialPrintln "ERROR: OLED not found!",
         Event.serialPrintln "Trying alternate address 0x3D...",
         Event.displayBegin VccSource.SSD1306_SWITCHCAPVCC 0x3D false,
         Event.serialPrintln "ERROR: OLED still not found at 0x3D!",
         Event.serialPrintln "Check connections:",
         Event.serialPrintln "  VCC → 3V3",
         Event.serialPrintln "  GND → GND",
         Event.serialPrintln "  SDA → GPIO 21",
         Event.serialPrintln "  SCL → GPIO 22"])
    else
      (Outcome.returned,
        [Event.displayBegin VccSource.SSD1306_SWITCHCAPVCC SCREEN_ADDRESS false,
         Event.serialPrintln "ERROR: OLED not found!",
         Event.serialPrintln "Trying alternate address 0x3D...",
         Event.displayBegin VccSource.SSD1306_SWITCHCAPVCC 0x3D true,
         Event.serialPrintln "SUCCESS: OLED found at 0x3D"])
  else
    (Outcome.returned,
      [Event.displayBegin VccSource.SSD1306_SWITCHCAPVCC SCREEN_ADDRESS true,
       Event.serialPrintln "SUCCESS: OLED found at 0x3C"])

/-- Lines 17-61: `setup()`.  After the halt of line 38 nothing more is executed;
otherwise the banner follows the probe. -/
def setup (beginOk : Nat → Bool) : Outcome × List Event :=
  match probe beginOk with
  | (Outcome.halted, evs) => (Outcome.halted, preamble ++ evs)
  | (Outcome.returned, evs) => (Outcome.returned, preamble ++ evs ++ banner)

/-- Line 65: the initial value of the static `counter`. -/
def counterInit : Int := 0

/-- The type `int` is 32 bits wide: reduction to the range `-2^31 .. 2^31 - 1`. -/
def wrapInt (x : Int) : Int := (x + 2147483648) % 4294967296 - 2147483648

/-- Lines 63-82: one execution of `loop()` on the static `counter`. -/
def loop (counter : Int) : Int × List Event :=
  let counter := wrapInt (counter + 1)
  (counter,
   [Event.delay 1000,
    Event.clearDisplay,
    Event.setTextSize 1,
    Event.setCursor 0 0,
    Event.displayPrintln "Gateway OLED OK",
    Event.displayPrintln "---------------",
    Event.setTextSize 2,
    Event.displayPrint "Count: ",
    Event.displayPrintlnInt counter,
    Event.display,
    Event.serialPrint "OLED update: ",
    Event.serialPrintlnInt counter])

/-- The first `n` executions of `loop()`: for each, the counter when it ends and
the calls it made. -/
def loops : Nat → Int → List (Int × List Event)
  | 0, _ => []
  | n + 1, counter =>
    let out := loop counter
    out :: loops n out.1

/-- The counter after the listed executions of `loop()`. -/
def lastCounter (start : Int) (runs : List (Int × List Event)) : Int :=
  (runs.getLast?.map Prod.fst).getD start

/-- The firmware `setup(); for (;;) loop();` observed until `n` executions of
`loop()` are complete, or for ever in the halt of `setup()`: how `setup()` ended,
its calls, and the executions of `loop()`. -/
def sketch (beginOk : Nat → Bool) (n : Nat) : Outcome × List Event × List (Int × List Event) :=
  match setup beginOk with
  | (Outcome.halted, evs) => (Outcome.halted, evs, [])
  | (Outcome.returned, evs) => (Outcome.returned, evs, loops n counterInit)

/-- The calls `display.begin(.., addr)` of a trace, with their results, in order. -/
def beginCalls : List Event → List (Nat × Bool)
  | [] => []
  | Event.displayBegin _ addr ok :: rest => (addr, ok) :: beginCalls rest
  | _ :: rest => beginCalls rest

/-- Whether a call draws into the frame buffer or flushes it. -/
def Event.isDraw : Event → Bool
  | Event.clearDisplay => true
  | Event.setTextSize _ => true
  | Event.setTextColor _ => true
  | Event.setCursor _ _ => true
  | Event.displayPrint _ => true
  | Event.displayPrintln _ => true
  | Event.displayPrintlnInt _ => true
  | Event.display => true
  | _ => false

/-- The characters written to the display; `println` ends the line with `\r\n`. -/
def drawnText : List Event → String
  | [] => ""
  | Event.displayPrint s :: rest => s ++ drawnText rest
  | Event.displayPrintln s :: rest => s ++ "\r\n" ++ drawnText rest
  | Event.displayPrintlnInt n :: rest => toString n ++ "\r\n" ++ drawnText rest
  | _ :: rest => drawnText rest

/-- The text sent to the serial port. -/
def serialText : List Event → String
  | [] => ""
  | Event.serialPrint s :: rest => s ++ serialText rest
  | Event.serialPrintln s :: rest => s ++ "\r\n" ++ serialText rest
  | Event.serialPrintlnInt n :: rest => toString n ++ "\r\n" ++ serialText rest
  | _ :: rest => serialText rest

end test_oled

/-! ## Facts about `float` comparison with zero -/

theorem F32.eqZero_iff_val (x : F32) : x.eqZero = true ↔ x.val = FVal.fin 0 := by
  obtain ⟨s, e, m⟩ := x
  simp only [F32.eqZero, F32.val]
  by_cases he : e.val = 255
  · simp [he]
    split <;> simp
  · by_cases h0 : e.val = 0
    · simp [h0]
      cases s <;> simp
    · simp [h0, he]
      have h1 : (0 : ℚ) < 1 + (m.val : ℚ) / 8388608 := by positivity
      cases s <;> simp <;> linarith

namespace mpucheck

/-! ## The sensor loop, one iteration -/

theorem is_all_zero_iff (r : Reading) : is_all_zero r = true ↔ r.allSixZero := by
  simp only [is_all_zero, Reading.allSixZero, Bool.and_eq_true, F32.eqZero_iff_val]
  tauto

theorem is_all_zero_eq_false_iff (r : Reading) : is_all_zero r = false ↔ ¬ r.allSixZero := by
  rw [← is_all_zero_iff]
  simp

theorem loop_connected_fail (r : Reading) (h : is_all_zero r = true) :
    loop false r false =
      (true, [Event.getEvent, Event.serialPrintln zeroLine, Event.serialPrintln lossMsg,
              Event.mpuBegin false, Event.delay 500]) := by
  simp [loop, h, markLost, reconnect]

theorem loop_connected_ok (r : Reading) (h : is_all_zero r = true) :
    loop false r true =
      (false, [Event.getEvent, Event.serialPrintln zeroLine, Event.serialPrintln lossMsg,
               Event.mpuBegin true, Event.serialPrintln reconnectMsg,
               Event.setAccelerometerRange AccelRange.MPU6050_RANGE_8_G,
               Event.setGyroRange GyroRange.MPU6050_RANGE_500_DEG,
               Event.setFilterBandwidth Bandwidth.MPU6050_BAND_21_HZ,
               Event.delay 500]) := by
  simp [loop, h, markLost, reconnect]

theorem loop_lost_fail (r : Reading) (h : is_all_zero r = true) :
    loop true r false = (true, [Event.getEvent, Event.mpuBegin false, Event.delay 500]) := by
  simp [loop, h, markLost, reconnect]

theorem loop_lost_ok (r : Reading) (h : is_all_zero r = true) :
    loop true r true =
      (false, [Event.getEvent, Event.mpuBegin true, Event.serialPrintln reconnectMsg,
               Event.setAccelerometerRange AccelRange.MPU6050_RANGE_8_G,
               Event.setGyroRange GyroRange.MPU6050_RANGE_500_DEG,
               Event.setFilterBandwidth Bandwidth.MPU6050_BAND_21_HZ,
               Event.delay 500]) := by
  simp [loop, h, markLost, reconnect]

theorem loop_nonzero (cl : Bool) (r : Reading) (b : Bool) (h : is_all_zero r = false) :
    loop cl r b = (false, Event.getEvent :: printData r) := by
  simp [loop, h]

/-- C1: a reading is judged a failure exactly when all six motion components are
equal to zero; the reconnection branch (the call of `mpu.begin()`) is taken exactly
then, and the temperature has no influence on what `loop()` does. -/
theorem C1_failure_iff_all_six_zero (connection_lost : Bool) (r : Reading) (beginOk : Bool) :
    (is_all_zero r = true ↔
      (r.acceleration.x.val = FVal.fin 0 ∧ r.acceleration.y.val = FVal.fin 0 ∧
       r.acceleration.z.val = FVal.fin 0 ∧
       r.gyro.x.val = FVal.fin 0 ∧ r.gyro.y.val = FVal.fin 0 ∧ r.gyro.z.val = FVal.fin 0)) ∧
    (beginAttempts (loop connection_lost r beginOk).2 = (if is_all_zero r then 1 else 0)) ∧
    (∀ t : F32, is_all_zero ⟨r.acceleration, r.gyro, t⟩ = is_all_zero r ∧
      loop connection_lost ⟨r.acceleration, r.gyro, t⟩ beginOk
        = loop connection_lost r beginOk) := by
  refine ⟨is_all_zero_iff r, ?_, ?_⟩
  · cases h : is_all_zero r
    · rw [loop_nonzero _ _ _ h]
      simp [beginAttempts, printData, Event.isBegin]
    · cases connection_lost <;> cases beginOk <;>
        simp [loop, h, markLost, reconnect, beginAttempts, Event.isBegin]
  · intro t
    have hz : is_all_zero ⟨r.acceleration, r.gyro, t⟩ = is_all_zero r := rfl
    refine ⟨hz, ?_⟩
    simp only [loop, hz, printData]

/-- C3: an iteration whose reading has a non-zero component ends with
`connection_lost = false` whatever the flag was, prints neither the loss nor the
reconnect diagnostic, does not call `mpu.begin()`, prints exactly the data line
`Accel: ax, ay, az | Gyro: gx, gy, gz` with each component printed with two decimal
places, and then makes one `delay(500)`. -/
theorem C3_nonzero_reading_prints_data_line (connection_lost : Bool) (r : Reading)
    (beginOk : Bool) (h : ¬ r.allSixZero) :
    (loop connection_lost r beginOk).1 = false ∧
    (loop connection_lost r beginOk).2.count (Event.serialPrintln lossMsg) = 0 ∧
    (loop connection_lost r beginOk).2.count (Event.serialPrintln reconnectMsg) = 0 ∧
    beginAttempts (loop connection_lost r beginOk).2 = 0 ∧
    serialOut (loop connection_lost r beginOk).2 =
      [Event.serialPrint "Accel: ",
       Event.serialPrintFloat r.acceleration.x 2, Event.serialPrint ", ",
       Event.serialPrintFloat r.acceleration.y 2, Event.serialPrint ", ",
       Event.serialPrintFloat r.acceleration.z 2, Event.serialPrint " | ",
       Event.serialPrint "Gyro: ",
       Event.serialPrintFloat r.gyro.x 2, Event.serialPrint ", ",
       Event.serialPrintFloat r.gyro.y 2, Event.serialPrint ", ",
       Event.serialPrintlnFloat r.gyro.z 2] ∧
    (∀ fmt : F32 → Nat → String,
      render fmt (loop connection_lost r beginOk).2 =
        "Accel: " ++ (fmt r.acceleration.x 2 ++ (", " ++ (fmt r.acceleration.y 2 ++ (", " ++
          (fmt r.acceleration.z 2 ++ (" | " ++ ("Gyro: " ++ (fmt r.gyro.x 2 ++ (", " ++
          (fmt r.gyro.y 2 ++ (", " ++ (fmt r.gyro.z 2 ++ "\r\n"))))))))))))) ∧
    (loop connection_lost r beginOk).2.filter Event.isDelay = [Event.delay 500] ∧
    (loop connection_lost r beginOk).2.getLast? = some (Event.delay 500) := by
  have hz := (is_all_zero_eq_false_iff r).mpr h
  rw [loop_nonzero _ _ _ hz]
  refine ⟨rfl, ?_, ?_, ?_, ?_, ?_, ?_, ?_⟩
  · simp [printData, List.count_cons]
  · simp [printData, List.count_cons]
  · simp [beginAttempts, printData, Event.isBegin]
  · simp [serialOut, printData, Event.isSerial]
  · intro fmt
    simp [render, printData, String.append_assoc]
  · simp [printData, Event.isDelay]
  · simp [printData]

/-- Witness for C3: the reading `(1.0, 0, 0, 0, 0, 0)` with the flag set. -/
theorem C3_nonzero_reading_prints_data_line_witness :
    (loop true (accelXReading F32.one F32.zero) true).1 = false ∧
    (loop true (accelXReading F32.one F32.zero) true).2.filter Event.isDelay
      = [Event.delay 500] :=
  have h := C3_nonzero_reading_prints_data_line true (accelXReading F32.one F32.zero) true
    ((is_all_zero_eq_false_iff _).mp (by decide))
  ⟨h.1, h.2.2.2.2.2.2.1⟩

/-- C5, as stated, fails: with `connection_lost = true` and the reading
`(1.0, 0, 0, 0, 0, 0)` the iteration does not call `mpu.begin()` at all. -/
theorem C5_counterexample :
    ¬ (beginAttempts (loop true (accelXReading F32.one F32.zero) true).2 = 1) := by
  decide

/-- C5 (amended): an iteration that starts with `connection_lost = true` and reads an
all-zero reading calls `mpu.begin()` exactly once; when the call succeeds the
iteration sets the accelerometer range to 8 g, the gyro range to 500 deg/s and the
filter bandwidth to 21 Hz and ends with `connection_lost = false`; when it fails the
iteration makes one `delay(500)` and ends with `connection_lost = true`. -/
theorem C5_lost_zero_reading_retries_once (r : Reading) (beginOk : Bool)
    (h : r.allSixZero) :
    beginAttempts (loop true r beginOk).2 = 1 ∧
    (beginOk = true →
      (loop true r beginOk).1 = false ∧
      (loop true r beginOk).2 =
        [Event.getEvent, Event.mpuBegin true, Event.serialPrintln reconnectMsg,
         Event.setAccelerometerRange AccelRange.MPU6050_RANGE_8_G,
         Event.setGyroRange GyroRange.MPU6050_RANGE_500_DEG,
         Event.setFilterBandwidth Bandwidth.MPU6050_BAND_21_HZ,
         Event.delay 500]) ∧
    (beginOk = false →
      (loop true r beginOk).1 = true ∧
      (loop true r beginOk).2 = [Event.getEvent, Event.mpuBegin false, Event.delay 500]) := by
  have hz := (is_all_zero_iff r).mpr h
  cases beginOk
  · rw [loop_lost_fail r hz]
    simp [beginAttempts, Event.isBegin]
  · rw [loop_lost_ok r hz]
    simp [beginAttempts, Event.isBegin]

/-- Witness for C5 (amended): the all-zero reading with `mpu.begin()` failing. -/
theorem C5_lost_zero_reading_retries_once_witness :
    beginAttempts (loop true (zeroReading F32.one) false).2 = 1 ∧
    (loop true (zeroReading F32.one) false).1 = true :=
  have h := C5_lost_zero_reading_retries_once (zeroReading F32.one) false
    ((is_all_zero_iff _).mp (by decide))
  ⟨h.1, (h.2.2 rfl).1⟩

/-- C6, as stated, fails: from `connection_lost = false`, an all-zero reading with
`mpu.begin()` succeeding ends the iteration with `connection_lost = false`. -/
theorem C6_counterexample :
    ¬ ((loop false (zeroReading F32.zero) true).1 = true) := by
  decide

/-- C6 (amended): an iteration that starts with `connection_lost = false` and reads an
all-zero reading sets the flag and prints the loss diagnostic once; it ends with
`connection_lost = true` when the `mpu.begin()` call of that iteration fails, and
with `connection_lost = false` when that call succeeds. -/
theorem C6_connected_to_lost (r : Reading) (beginOk : Bool) (h : r.allSixZero) :
    (markLost false).1 = true ∧
    (loop false r beginOk).2.count (Event.serialPrintln lossMsg) = 1 ∧
    (beginOk = false → (loop false r beginOk).1 = true) ∧
    (beginOk = true → (loop false r beginOk).1 = false) := by
  have hz := (is_all_zero_iff r).mpr h
  cases beginOk
  · rw [loop_connected_fail r hz]
    exact ⟨rfl, by decide, fun _ => rfl, fun hb => Bool.noConfusion hb⟩
  · rw [loop_connected_ok r hz]
    exact ⟨rfl, by decide, fun hb => Bool.noConfusion hb, fun _ => rfl⟩

/-- Witness for C6 (amended): the all-zero reading with `mpu.begin()` failing. -/
theorem C6_connected_to_lost_witness :
    (loop false (zeroReading F32.zero) false).1 = true :=
  (C6_connected_to_lost (zeroReading F32.zero) false
    ((is_all_zero_iff _).mp (by decide))).2.2.1 rfl

/-! ## The sensor loop, runs of several iterations -/

theorem getElem_opt_replicate_append_singleton {α : Type} (n j : Nat) (a b out : α)
    (h : (List.replicate n a ++ [b])[j]? = some out) :
    (j < n ∧ out = a) ∨ (j = n ∧ out = b) := by
  induction n generalizing j with
  | zero =>
    cases j with
    | zero => simp at h; exact Or.inr ⟨rfl, h.symm⟩
    | succ j => simp at h
  | succ n ih =>
    cases j with
    | zero => simp [List.replicate_succ] at h; exact Or.inl ⟨Nat.succ_pos n, h.symm⟩
    | succ j =>
      simp only [List.replicate_succ, List.cons_append, List.getElem?_cons_succ] at h
      rcases ih j h with ⟨h1, h2⟩ | ⟨h1, h2⟩
      · exact Or.inl ⟨Nat.succ_lt_succ h1, h2⟩
      · exact Or.inr ⟨by omega, h2⟩

theorem iterations_lost_fails_then_ok (fails : List Input) (last : Input)
    (hf : ∀ i ∈ fails, is_all_zero i.reading = true ∧ i.beginOk = false)
    (hl : is_all_zero last.reading = true ∧ last.beginOk = true) :
    iterations true (fails ++ [last]) =
      List.replicate fails.length
          (true, [Event.getEvent, Event.mpuBegin false, Event.delay 500]) ++
        [(false, [Event.getEvent, Event.mpuBegin true, Event.serialPrintln reconnectMsg,
                  Event.setAccelerometerRange AccelRange.MPU6050_RANGE_8_G,
                  Event.setGyroRange GyroRange.MPU6050_RANGE_500_DEG,
                  Event.setFilterBandwidth Bandwidth.MPU6050_BAND_21_HZ,
                  Event.delay 500])] := by
  induction fails with
  | nil =>
    obtain ⟨r, b⟩ := last
    simp only at hl
    simp [iterations, hl.2, loop_lost_ok r hl.1]
  | cons f fs ih =>
    obtain ⟨r, b⟩ := f
    have h0 := hf ⟨r, b⟩ (List.mem_cons_self _ _)
    simp only at h0
    have ih1 := ih (fun i hi => hf i (List.mem_cons_of_mem _ hi))
    simp [iterations, h0.2, loop_lost_fail r h0.1, ih1, List.replicate_succ]

theorem finalFlag_append_singleton (cl : Bool) (xs : List Input) (last : Input) :
    finalFlag cl (xs ++ [last]) = (loop (finalFlag cl xs) last.reading last.beginOk).1 := by
  induction xs generalizing cl with
  | nil => rfl
  | cons x xs ih => exact ih (loop cl x.reading x.beginOk).1

theorem loop_zero_ok_flag (cl : Bool) (r : Reading) (h : is_all_zero r = true) :
    (loop cl r true).1 = false := by
  cases cl
  · rw [loop_connected_ok r h]
  · rw [loop_lost_ok r h]

theorem iterations_connected_all_ok (inputs : List Input)
    (h : ∀ i ∈ inputs, is_all_zero i.reading = true ∧ i.beginOk = true) :
    iterations false inputs =
      List.replicate inputs.length
        (false, [Event.getEvent, Event.serialPrintln zeroLine, Event.serialPrintln lossMsg,
                 Event.mpuBegin true, Event.serialPrintln reconnectMsg,
                 Event.setAccelerometerRange AccelRange.MPU6050_RANGE_8_G,
                 Event.setGyroRange GyroRange.MPU6050_RANGE_500_DEG,
                 Event.setFilterBandwidth Bandwidth.MPU6050_BAND_21_HZ,
                 Event.delay 500]) := by
  induction inputs with
  | nil => rfl
  | cons f fs ih =>
    obtain ⟨r, b⟩ := f
    have h0 := h ⟨r, b⟩ (List.mem_cons_self _ _)
    simp only at h0
    have ih1 := ih (fun i hi => h i (List.mem_cons_of_mem _ hi))
    simp [iterations, h0.2, loop_connected_ok r h0.1, ih1, List.replicate_succ]

theorem finalFlag_connected_all_ok (inputs : List Input)
    (h : ∀ i ∈ inputs, is_all_zero i.reading = true ∧ i.beginOk = true) :
    finalFlag false inputs = false := by
  induction inputs with
  | nil => rfl
  | cons f fs ih =>
    obtain ⟨r, b⟩ := f
    have h0 := h ⟨r, b⟩ (List.mem_cons_self _ _)
    simp only at h0
    have ih1 := ih (fun i hi => h i (List.mem_cons_of_mem _ hi))
    simp [finalFlag, h0.2, loop_connected_ok r h0.1, ih1]

theorem count_allEvents_replicate (n : Nat) (e : Event) (out : Bool × List Event) :
    (allEvents (List.replicate n out)).count e = n * out.2.count e := by
  induction n with
  | zero => simp [allEvents]
  | succ n ih =>
    simp only [List.replicate_succ, allEvents, List.count_append, ih]
    ring

/-- C2: from `connection_lost = false`, `k` all-zero iterations in which `mpu.begin()`
fails followed by one all-zero iteration in which it succeeds: the loss diagnostic is
printed once, in the first iteration; iterations `2..k` print nothing; the reconnect
diagnostic is printed once, in the last iteration; the flag is `true` after each of
the first `k` iterations and `false` after the last. -/
theorem C2_one_loss_diagnostic_until_recovery (fails : List Input) (last : Input)
    (hf : ∀ i ∈ fails, i.reading.allSixZero ∧ i.beginOk = false)
    (hl : last.reading.allSixZero ∧ last.beginOk = true) :
    (iterations false (fails ++ [last])).length = fails.length + 1 ∧
    finalFlag false (fails ++ [last]) = false ∧
    ∀ (j : Nat) (out : Bool × List Event),
      (iterations false (fails ++ [last]))[j]? = some out →
        out.2.count (Event.serialPrintln lossMsg) = (if j = 0 then 1 else 0) ∧
        out.2.count (Event.serialPrintln reconnectMsg) = (if j = fails.length then 1 else 0) ∧
        (0 < j → j < fails.length → serialOut out.2 = []) ∧
        out.1 = decide (j < fails.length) := by
  have hf1 : ∀ i ∈ fails, is_all_zero i.reading = true ∧ i.beginOk = false :=
    fun i hi => ⟨(is_all_zero_iff _).mpr (hf i hi).1, (hf i hi).2⟩
  have hl1 : is_all_zero last.reading = true ∧ last.beginOk = true :=
    ⟨(is_all_zero_iff _).mpr hl.1, hl.2⟩
  refine ⟨?_, ?_, ?_⟩
  · cases fails with
    | nil => rfl
    | cons f fs =>
      have hfs := iterations_lost_fails_then_ok fs last
        (fun i hi => hf1 i (List.mem_cons_of_mem _ hi)) hl1
      have h0 := hf1 f (List.mem_cons_self _ _)
      rw [List.cons_append]
      simp only [iterations, h0.2, loop_connected_fail _ h0.1, hfs]
      simp
  · rw [finalFlag_append_singleton, hl1.2]
    exact loop_zero_ok_flag _ _ hl1.1
  · intro j out hj
    cases fails with
    | nil =>
      simp only [List.nil_append, iterations, hl1.2, loop_connected_ok _ hl1.1] at hj
      cases j with
      | zero =>
        simp only [List.getElem?_cons_zero, Option.some.injEq] at hj
        subst hj
        exact ⟨by decide, by decide, fun h => absurd h (Nat.lt_irrefl 0), rfl⟩
      | succ j => simp at hj
    | cons f fs =>
      have hfs := iterations_lost_fails_then_ok fs last
        (fun i hi => hf1 i (List.mem_cons_of_mem _ hi)) hl1
      have h0 := hf1 f (List.mem_cons_self _ _)
      rw [List.cons_append] at hj
      simp only [iterations, h0.2, loop_connected_fail _ h0.1, hfs] at hj
      cases j with
      | zero =>
        simp only [List.getElem?_cons_zero, Option.some.injEq] at hj
        subst hj
        refine ⟨by decide, ?_, fun h => absurd h (Nat.lt_irrefl 0), ?_⟩
        · rw [if_neg (by simp)]
          decide
        · simp
      | succ j =>
        simp only [List.getElem?_cons_succ] at hj
        rcases getElem_opt_replicate_append_singleton _ _ _ _ _ hj with ⟨h1, h2⟩ | ⟨h1, h2⟩
        · subst h2
          refine ⟨?_, ?_, fun _ _ => by decide, ?_⟩
          · rw [if_neg (Nat.succ_ne_zero j)]
            decide
          · rw [if_neg (by simp only [List.length_cons]; omega)]
            decide
          · simp only [List.length_cons]
            exact (decide_eq_true (by omega)).symm
        · subst h2
          subst h1
          refine ⟨?_, ?_, ?_, ?_⟩
          · rw [if_neg (Nat.succ_ne_zero _)]
            decide
          · rw [if_pos (by simp)]
            decide
          · intro _ h
            simp at h
          · simp

/-- Witness for C2: five failing attempts, success at the sixth (Scenario B). -/
theorem C2_one_loss_diagnostic_until_recovery_witness :
    finalFlag false
      (List.replicate 5 (⟨zeroReading F32.zero, false⟩ : Input)
        ++ [⟨zeroReading F32.zero, true⟩]) = false :=
  (C2_one_loss_diagnostic_until_recovery
    (List.replicate 5 ⟨zeroReading F32.zero, false⟩) ⟨zeroReading F32.zero, true⟩
    (fun i hi => by
      rw [List.eq_of_mem_replicate hi]
      exact ⟨(is_all_zero_iff _).mp (by decide), rfl⟩)
    ⟨(is_all_zero_iff _).mp (by decide), rfl⟩).2.1

/-- C4, as stated, fails: the serial output of Scenario A is not just the data line,
the loss diagnostic, the reconnect diagnostic and the data line; the second
iteration also prints the literal line of line 49. -/
theorem C4_counterexample :
    ¬ (serialOut (allEvents (iterations false (scenarioA false false F32.zero))) =
        serialOut (printData (accelXReading F32.one F32.zero)) ++
          [Event.serialPrintln lossMsg, Event.serialPrintln reconnectMsg] ++
          serialOut (printData (accelXReading F32.two F32.zero)) ∧
       finalFlag false (scenarioA false false F32.zero) = false) := by
  decide

/-- C4 (amended): the serial output of Scenario A is, in this order and with nothing
else: the data line of the first reading, the literal line
`Accel: 0.00, 0.00, 0.00 | Gyro: 0.00, 0.00, 0.00` and the loss diagnostic (both in
the second iteration), the reconnect diagnostic (third iteration, which prints no
loss diagnostic), the data line of the fourth reading; the flag ends `false`. -/
theorem C4_scenario_A (b1 b4 : Bool) (t : F32) :
    serialOut (allEvents (iterations false (scenarioA b1 b4 t))) =
      serialOut (printData (accelXReading F32.one t)) ++
        [Event.serialPrintln zeroLine, Event.serialPrintln lossMsg,
         Event.serialPrintln reconnectMsg] ++
        serialOut (printData (accelXReading F32.two t)) ∧
    (iterations false (scenarioA b1 b4 t)).map
        (fun out => out.2.count (Event.serialPrintln lossMsg)) = [0, 1, 0, 0] ∧
    (iterations false (scenarioA b1 b4 t)).map
        (fun out => out.2.count (Event.serialPrintln reconnectMsg)) = [0, 0, 1, 0] ∧
    (iterations false (scenarioA b1 b4 t)).map Prod.fst = [false, true, false, false] ∧
    finalFlag false (scenarioA b1 b4 t) = false := by
  have h1 : is_all_zero (accelXReading F32.one t) = false := rfl
  have h2 : is_all_zero (accelXReading F32.two t) = false := rfl
  have h0 : is_all_zero (zeroReading t) = true := rfl
  simp only [scenarioA, iterations, finalFlag, loop_nonzero _ _ _ h1, loop_nonzero _ _ _ h2,
    loop_connected_fail _ h0, loop_lost_ok _ h0, allEvents, printData]
  refine ⟨?_, ?_, ?_, ?_, ?_⟩
  · simp [serialOut, Event.isSerial]
  · simp [List.count_cons]
    decide
  · simp [List.count_cons]
    decide
  · rfl
  · trivial

/-- C10: from `connection_lost = false`, in a run of all-zero iterations in each of
which `mpu.begin()` succeeds, every iteration prints the loss diagnostic once and the
reconnect diagnostic once and ends with `connection_lost = false`; over `n` such
iterations each diagnostic is printed `n` times. -/
theorem C10_diagnostic_repeats_when_begin_succeeds (inputs : List Input)
    (h : ∀ i ∈ inputs, i.reading.allSixZero ∧ i.beginOk = true) :
    (iterations false inputs).length = inputs.length ∧
    (∀ out ∈ iterations false inputs,
        out.1 = false ∧
        out.2.count (Event.serialPrintln lossMsg) = 1 ∧
        out.2.count (Event.serialPrintln reconnectMsg) = 1) ∧
    (allEvents (iterations false inputs)).count (Event.serialPrintln lossMsg)
      = inputs.length ∧
    (allEvents (iterations false inputs)).count (Event.serialPrintln reconnectMsg)
      = inputs.length ∧
    finalFlag false inputs = false := by
  have h1 : ∀ i ∈ inputs, is_all_zero i.reading = true ∧ i.beginOk = true :=
    fun i hi => ⟨(is_all_zero_iff _).mpr (h i hi).1, (h i hi).2⟩
  rw [iterations_connected_all_ok inputs h1]
  refine ⟨by simp, ?_, ?_, ?_, finalFlag_connected_all_ok inputs h1⟩
  · intro out hout
    rw [List.eq_of_mem_replicate hout]
    exact ⟨rfl, by decide, by decide⟩
  · rw [count_allEvents_replicate]
    have : List.count (Event.serialPrintln lossMsg)
        [Event.getEvent, Event.serialPrintln zeroLine, Event.serialPrintln lossMsg,
         Event.mpuBegin true, Event.serialPrintln reconnectMsg,
         Event.setAccelerometerRange AccelRange.MPU6050_RANGE_8_G,
         Event.setGyroRange GyroRange.MPU6050_RANGE_500_DEG,
         Event.setFilterBandwidth Bandwidth.MPU6050_BAND_21_HZ,
         Event.delay 500] = 1 := by decide
    simp only [this, Nat.mul_one]
  · rw [count_allEvents_replicate]
    have : List.count (Event.serialPrintln reconnectMsg)
        [Event.getEvent, Event.serialPrintln zeroLine, Event.serialPrintln lossMsg,
         Event.mpuBegin true, Event.serialPrintln reconnectMsg,
         Event.setAccelerometerRange AccelRange.MPU6050_RANGE_8_G,
         Event.setGyroRange GyroRange.MPU6050_RANGE_500_DEG,
         Event.setFilterBandwidth Bandwidth.MPU6050_BAND_21_HZ,
         Event.delay 500] = 1 := by decide
    simp only [this, Nat.mul_one]

/-- Witness for C10: three iterations. -/
theorem C10_diagnostic_repeats_when_begin_succeeds_witness :
    (allEvents (iterations false
        (List.replicate 3 (⟨zeroReading F32.zero, true⟩ : Input)))).count
      (Event.serialPrintln lossMsg) = 3 :=
  (C10_diagnostic_repeats_when_begin_succeeds
    (List.replicate 3 ⟨zeroReading F32.zero, true⟩)
    (fun i hi => by
      rw [List.eq_of_mem_replicate hi]
      exact ⟨(is_all_zero_iff _).mp (by decide), rfl⟩)).2.2.1

end mpucheck

namespace test_oled

/-! ## The display sketch -/

theorem wrapInt_of_inRange (x : Int) (h1 : -2147483648 ≤ x) (h2 : x < 2147483648) :
    wrapInt x = x := by
  unfold wrapInt
  omega

theorem loops_getElem_opt (n j : Nat) (c : Int) (hj : j < n) (h1 : -2147483648 ≤ c)
    (h2 : c + j + 1 < 2147483648) :
    (loops n c)[j]? = some (loop (c + j)) ∧ (loop (c + j)).1 = c + j + 1 := by
  induction n generalizing j c with
  | zero => omega
  | succ n ih =>
    cases j with
    | zero =>
      simp only [loops, List.getElem?_cons_zero, Nat.cast_zero, Int.add_zero, true_and] at h2 ⊢
      exact wrapInt_of_inRange _ (by omega) (by omega)
    | succ j =>
      have hc : (loop c).1 = c + 1 := wrapInt_of_inRange _ (by omega) (by push_cast at h2; omega)
      simp only [loops, List.getElem?_cons_succ, hc]
      have := ih j (c + 1) (by omega) (by omega) (by push_cast at h2; omega)
      have e : c + 1 + (j : Int) = c + ((j + 1 : Nat) : Int) := by push_cast; ring
      rw [e] at this
      exact this

/-- C7: the counter starts at 0, and for `1 ≤ n < 2^31` the `n`-th execution of
`loop()` leaves the counter at `n`, draws `Count: n` on the display and writes `n`
to the serial log. -/
theorem C7_counter_counts_iterations (n m : Nat) (h1 : 1 ≤ n) (h2 : n < 2147483648)
    (hm : n ≤ m) :
    counterInit = 0 ∧
    (loops m counterInit)[n - 1]? =
      some ((n : Int),
        [Event.delay 1000, Event.clearDisplay, Event.setTextSize 1, Event.setCursor 0 0,
         Event.displayPrintln "Gateway OLED OK", Event.displayPrintln "---------------",
         Event.setTextSize 2, Event.displayPrint "Count: ", Event.displayPrintlnInt n,
         Event.display, Event.serialPrint "OLED update: ", Event.serialPrintlnInt n]) ∧
    (∀ out, (loops m counterInit)[n - 1]? = some out →
      drawnText out.2 =
        "Gateway OLED OK\r\n" ++ ("---------------\r\n" ++ ("Count: " ++ (toString (n : Int) ++ "\r\n"))) ∧
      serialText out.2 = "OLED update: " ++ (toString (n : Int) ++ "\r\n")) := by
  have h := loops_getElem_opt m (n - 1) counterInit (by omega) (by decide)
    (by simp only [counterInit]; omega)
  have e : counterInit + ((n - 1 : Nat) : Int) + 1 = (n : Int) := by
    simp only [counterInit]; omega
  rw [e] at h
  have hloop : loop (counterInit + ((n - 1 : Nat) : Int)) = ((n : Int),
        [Event.delay 1000, Event.clearDisplay, Event.setTextSize 1, Event.setCursor 0 0,
         Event.displayPrintln "Gateway OLED OK", Event.displayPrintln "---------------",
         Event.setTextSize 2, Event.displayPrint "Count: ", Event.displayPrintlnInt n,
         Event.display, Event.serialPrint "OLED update: ", Event.serialPrintlnInt n]) := by
    have := h.2
    simp only [loop] at this ⊢
    rw [this]
  rw [hloop] at h
  refine ⟨rfl, h.1, ?_⟩
  intro out hout
  rw [h.1] at hout
  simp only [Option.some.injEq] at hout
  subst hout
  simp [drawnText, serialText, String.append_assoc]

/-- Witness for C7: the third execution, seen in a run of five. -/
theorem C7_counter_counts_iterations_witness :
    (loops 5 counterInit)[3 - 1]? =
      some ((3 : Int),
        [Event.delay 1000, Event.clearDisplay, Event.setTextSize 1, Event.setCursor 0 0,
         Event.displayPrintln "Gateway OLED OK", Event.displayPrintln "---------------",
         Event.setTextSize 2, Event.displayPrint "Count: ", Event.displayPrintlnInt 3,
         Event.display, Event.serialPrint "OLED update: ", Event.serialPrintlnInt 3]) :=
  (C7_counter_counts_iterations 3 5 (by decide) (by decide) (by decide)).2.1

/-- C8: `setup()` reaches the halt exactly when `display.begin` fails at 0x3C and at
0x3D, the address 0x3D being tried only after 0x3C has failed; when it halts, each
wiring-check line has been logged once, nothing has been drawn or flushed, and no
execution of `loop()` follows, so the counter keeps its initial value. -/
theorem C8_halt_iff_both_addresses_fail (beginOk : Nat → Bool) :
    ((setup beginOk).1 = Outcome.halted ↔ (beginOk 0x3C = false ∧ beginOk 0x3D = false)) ∧
    beginCalls (setup beginOk).2 =
      (if beginOk 0x3C then [(0x3C, true)] else [(0x3C, false), (0x3D, beginOk 0x3D)]) ∧
    ((setup beginOk).1 = Outcome.halted →
      (∀ msg ∈ wiringCheck, (setup beginOk).2.count (Event.serialPrintln msg) = 1) ∧
      (setup beginOk).2.filter Event.isDraw = [] ∧
      ∀ n : Nat,
        (sketch beginOk n).1 = Outcome.halted ∧
        (sketch beginOk n).2.1 = (setup beginOk).2 ∧
        (sketch beginOk n).2.2 = [] ∧
        lastCounter counterInit (sketch beginOk n).2.2 = 0) := by
  have hA : SCREEN_ADDRESS = 60 := rfl
  cases h1 : beginOk 60 <;> cases h2 : beginOk 61
  · simp only [setup, probe, sketch, hA, h1, h2]
    refine ⟨by simp, by simp [beginCalls, preamble], fun _ => ⟨by decide, by decide, fun n => ?_⟩⟩
    exact ⟨rfl, rfl, rfl, rfl⟩
  · simp only [setup, probe, sketch, hA, h1, h2]
    refine ⟨by simp, by simp [beginCalls, preamble, banner], fun h => ?_⟩
    simp at h
  · simp only [setup, probe, sketch, hA, h1, h2]
    refine ⟨by simp, by simp [beginCalls, preamble, banner], fun h => ?_⟩
    simp at h
  · simp only [setup, probe, sketch, hA, h1, h2]
    refine ⟨by simp, by simp [beginCalls, preamble, banner], fun h => ?_⟩
    simp at h

/-- Witness for C8: no display answers at any address. -/
theorem C8_halt_iff_both_addresses_fail_witness :
    (setup (fun _ => false)).1 = Outcome.halted ∧
    (∀ n : Nat, (sketch (fun _ => false) n).2.2 = []) :=
  have h := C8_halt_iff_both_addresses_fail (fun _ => false)
  ⟨h.1.mpr ⟨rfl, rfl⟩, fun n => ((h.2.2 (h.1.mpr ⟨rfl, rfl⟩)).2.2 n).2.2.1⟩

/-- C9: when `display.begin` fails at 0x3C and succeeds at 0x3D, `setup()` returns,
logs `SUCCESS: OLED found at 0x3D` once and `SUCCESS: OLED found at 0x3C` never, and
renders the banner once: one `clearDisplay`, the four banner lines, one flush. -/
theorem C9_fallback_address_succeeds (beginOk : Nat → Bool)
    (h1 : beginOk 0x3C = false) (h2 : beginOk 0x3D = true) :
    (setup beginOk).1 = Outcome.returned ∧
    beginCalls (setup beginOk).2 = [(0x3C, false), (0x3D, true)] ∧
    (setup beginOk).2.count (Event.serialPrintln "SUCCESS: OLED found at 0x3D") = 1 ∧
    (setup beginOk).2.count (Event.serialPrintln "SUCCESS: OLED found at 0x3C") = 0 ∧
    (setup beginOk).2.filter Event.isDraw =
      [Event.clearDisplay, Event.setTextSize 1, Event.setTextColor Color.SSD1306_WHITE,
       Event.setCursor 0 0, Event.displayPrintln "Gateway Node",
       Event.displayPrintln "OLED Test", Event.displayPrintln "---------------",
       Event.setTextSize 2, Event.displayPrintln "SUCCESS!", Event.display] ∧
    drawnText (setup beginOk).2 =
      "Gateway Node\r\nOLED Test\r\n---------------\r\nSUCCESS!\r\n" ∧
    (setup beginOk).2.getLast? = some (Event.serialPrintln "OLED displaying test pattern") := by
  have hA : SCREEN_ADDRESS = 60 := rfl
  simp only [setup, probe, hA, h1, h2]
  exact ⟨rfl, by decide, by decide, by decide, by decide, by decide, by decide⟩

/-- Witness for C9: a display that answers at 0x3D only. -/
theorem C9_fallback_address_succeeds_witness :
    (setup (fun addr => decide (addr = 0x3D))).1 = Outcome.returned ∧
    (setup (fun addr => decide (addr = 0x3D))).2.count
      (Event.serialPrintln "SUCCESS: OLED found at 0x3D") = 1 :=
  have h := C9_fallback_address_succeeds (fun addr => decide (addr = 0x3D))
    (by decide) (by decide)
  ⟨h.1, h.2.2.1⟩

end test_oled
